import Mathlib

/-!
Verification of the request pipeline in src/server.mjs of
andrelavell/hearing-test-server: a single POST /addToShopify handler that
validates an inbound customer record with a Joi schema, checks an optional
phone number with libphonenumber, builds a Shopify customer payload, makes
one outbound call, and translates the upstream result into the HTTP
response.

Modelling conventions:
- JSON numbers are modelled as integers (no claim inspects a fractional
  value; the three numeric fields are accepted and then dropped).
- The two library predicates that the code calls but whose source is not
  part of this repository, Joi email-syntax validation and
  parsePhoneNumberFromString(...).isValid(), are passed in as boolean
  checker parameters ev and pv.
- The wall-clock timestamp new Date().toISOString() is passed in as a
  string parameter now; the two consent records in the source each call it,
  a hair apart in real time, and the model uses one instant for both.
- Joi is run by the source with its default options: abortEarly (one error
  message is returned), convert, unknown keys rejected, empty strings
  rejected by Joi.string(). The model returns the first error in a fixed
  check order; no claim depends on which of several simultaneous
  validation errors is reported.
-/

/-- JSON values, as delivered to the handler by the express.json body
parser and as exchanged with the upstream service. Objects coming from
JSON.parse have pairwise distinct keys. -/
inductive Json where
  | str (s : String)
  | num (n : Int)
  | bool (b : Bool)
  | null
  | arr (elems : List Json)
  | obj (fields : List (String × Json))

/-- The destructured result of customerSchema.validate: the value object
with the eight schema fields, optional ones as Option. -/
structure ValidatedInput where
  email : String
  firstName : Option String
  lastName : Option String
  phone : Option String
  hearingLossLevel : Option String
  averageVolume : Option Int
  wordRecognitionScore : Option Int
  wordsMissed : Option Int
deriving Repr, DecidableEq

/-- The eight keys of customerSchema. -/
def schemaKeys : List String :=
  ["email", "firstName", "lastName", "phone", "hearingLossLevel",
   "averageVolume", "wordRecognitionScore", "wordsMissed"]

/-- Field lookup in a JSON object body. -/
def lookupField (fields : List (String × Json)) (key : String) : Option Json :=
  (fields.find? (fun kv => kv.1 = key)).map (fun kv => kv.2)

/-- The email field of a request body, none when the body is not an object
or has no email key. -/
def emailField (body : Json) : Option Json :=
  match body with
  | .obj fields => lookupField fields "email"
  | _ => none

/-- Joi object schemas reject keys outside the schema by default. -/
def checkUnknown (fields : List (String × Json)) : Except String Unit :=
  match fields.find? (fun kv => !(schemaKeys.contains kv.1)) with
  | some kv => .error (kv.1 ++ " is not allowed")
  | none => .ok ()

/-- Joi.string().email().required(): the field must be present, a string,
nonempty (Joi strings reject the empty string by default) and pass the
email-syntax check ev. -/
def checkEmail (ev : String → Bool) (f : Option Json) : Except String String :=
  match f with
  | none => .error "email is required"
  | some (.str s) =>
      if s = "" then .error "email is not allowed to be empty"
      else if ev s then .ok s else .error "email must be a valid email"
  | some _ => .error "email must be a string"

/-- Joi.string().optional(): absent is fine; a present value must be a
nonempty string (Joi strings reject the empty string by default). -/
def checkOptString (name : String) (f : Option Json) : Except String (Option String) :=
  match f with
  | none => .ok none
  | some (.str s) =>
      if s = "" then .error (name ++ " is not allowed to be empty")
      else .ok (some s)
  | some _ => .error (name ++ " must be a string")

/-- Joi.number().optional(): absent is fine; a present value must be a
number, or a numeric string which Joi converts (numbers modelled as
integers). -/
def checkOptNumber (name : String) (f : Option Json) : Except String (Option Int) :=
  match f with
  | none => .ok none
  | some (.num n) => .ok (some n)
  | some (.str s) =>
      match s.toInt? with
      | some n => .ok (some n)
      | none => .error (name ++ " must be a number")
  | some _ => .error (name ++ " must be a number")

/-- customerSchema.validate(req.body): the body must be an object, every
key must belong to the schema, email is required with valid syntax, the
other fields are optional strings or numbers. Returns the destructured
value on success and one error message on failure. -/
def validateCustomer (ev : String → Bool) (body : Json) : Except String ValidatedInput :=
  match body with
  | .obj fields =>
    match checkUnknown fields with
    | .error e => .error e
    | .ok _ =>
    match checkEmail ev (lookupField fields "email") with
    | .error e => .error e
    | .ok email =>
    match checkOptString "firstName" (lookupField fields "firstName") with
    | .error e => .error e
    | .ok firstName =>
    match checkOptString "lastName" (lookupField fields "lastName") with
    | .error e => .error e
    | .ok lastName =>
    match checkOptString "phone" (lookupField fields "phone") with
    | .error e => .error e
    | .ok phone =>
    match checkOptString "hearingLossLevel" (lookupField fields "hearingLossLevel") with
    | .error e => .error e
    | .ok hearingLossLevel =>
    match checkOptNumber "averageVolume" (lookupField fields "averageVolume") with
    | .error e => .error e
    | .ok averageVolume =>
    match checkOptNumber "wordRecognitionScore" (lookupField fields "wordRecognitionScore") with
    | .error e => .error e
    | .ok wordRecognitionScore =>
    match checkOptNumber "wordsMissed" (lookupField fields "wordsMissed") with
    | .error e => .error e
    | .ok wordsMissed =>
      .ok ⟨email, firstName, lastName, phone, hearingLossLevel,
           averageVolume, wordRecognitionScore, wordsMissed⟩
  | _ => .error "value must be of type object"

/-- One metafield entry; the source field names namespace and type are
Lean keywords and appear here as nspace and mtype. -/
structure Metafield where
  nspace : String
  key : String
  value : String
  mtype : String
deriving Repr, DecidableEq

/-- The emailMarketingConsent object literal. -/
structure EmailMarketingConsent where
  state : String
  opt_in_level : String
  consent_updated_at : String
deriving Repr, DecidableEq

/-- The smsMarketingConsent object literal. -/
structure SmsMarketingConsent where
  state : String
  opt_in_level : String
  consent_updated_at : String
  consent_collected_from : String
deriving Repr, DecidableEq

/-- The customer object inside shopifyPayload. -/
structure Customer where
  email : String
  first_name : String
  last_name : String
  phone : String
  verified_email : Bool
  accepts_marketing : Bool
  state : String
  tags : String
  metafields : List Metafield
  email_marketing_consent : EmailMarketingConsent
  sms_marketing_consent : SmsMarketingConsent
deriving Repr, DecidableEq

/-- The tags array: one entry when hearingLossLevel is truthy (a nonempty
string), else empty. -/
def buildTags (hearingLossLevel : Option String) : List String :=
  match hearingLossLevel with
  | some s => if s = "" then [] else [s]
  | none => []

/-- The metafields array: one entry when hearingLossLevel is truthy. -/
def buildMetafields (hearingLossLevel : Option String) : List Metafield :=
  match hearingLossLevel with
  | some s =>
      if s = "" then []
      else [⟨"custom", "hearing_loss_level", s, "single_line_text_field"⟩]
  | none => []

/-- JavaScript Array.prototype.join with a separator. -/
def joinWith (sep : String) : List String → String
  | [] => ""
  | [x] => x
  | x :: xs => x ++ sep ++ joinWith sep xs

/-- shopifyPayload.customer built from the validated input; now stands for
new Date().toISOString(). The three numeric fields of the input are not
used. -/
def buildPayload (v : ValidatedInput) (now : String) : Customer :=
  { email := v.email
    first_name := v.firstName.getD ""
    last_name := v.lastName.getD ""
    phone := v.phone.getD ""
    verified_email := true
    accepts_marketing := true
    state := "enabled"
    tags := joinWith ", " (buildTags v.hearingLossLevel)
    metafields := buildMetafields v.hearingLossLevel
    email_marketing_consent := ⟨"subscribed", "single_opt_in", now⟩
    sms_marketing_consent := ⟨"subscribed", "single_opt_in", now, "SHOPIFY"⟩ }

/-- What the upstream call does when the handler makes it: fetch resolves
and the response body parses (reply), fetch resolves but the body fails to
parse (badBody), or fetch itself throws (fault). The err strings stand for
error.toString(). -/
inductive UpstreamBehavior where
  | reply (status : Nat) (body : Json)
  | badBody (status : Nat) (err : String)
  | fault (err : String)

/-- An HTTP response sent by the handler. -/
structure HttpResponse where
  status : Nat
  body : Json

/-- The response together with the outbound call the handler made: the
payload posted to the upstream customers endpoint, or none when no call
was made. -/
structure HandlerResult where
  response : HttpResponse
  outboundCall : Option Customer

/-- The try block around fetch: posts the payload and translates the
upstream outcome. node-fetch sets ok when the status is in 200..299; the
catch clause turns any thrown error into a 500. -/
def forwardToShopify (payload : Customer) (up : UpstreamBehavior) : HandlerResult :=
  match up with
  | .fault e =>
      ⟨⟨500, .obj [("message", .str "Internal Server Error"), ("error", .str e)]⟩,
       some payload⟩
  | .badBody _ e =>
      ⟨⟨500, .obj [("message", .str "Internal Server Error"), ("error", .str e)]⟩,
       some payload⟩
  | .reply status rbody =>
      if 200 ≤ status ∧ status ≤ 299 then
        ⟨⟨200, .obj [("message", .str "Customer added to Shopify successfully"),
                     ("data", rbody)]⟩,
         some payload⟩
      else
        ⟨⟨status, .obj [("error", rbody)]⟩, some payload⟩

/-- The POST /addToShopify handler: Joi validation, then the truthiness
guarded phone check (if (phone) with the E.164 message), then the payload
build and the upstream call. -/
def handleAddToShopify (ev pv : String → Bool) (now : String)
    (up : UpstreamBehavior) (body : Json) : HandlerResult :=
  match validateCustomer ev body with
  | .error msg => ⟨⟨400, .obj [("error", .str msg)]⟩, none⟩
  | .ok v =>
    match v.phone with
    | some p =>
        if p = "" then forwardToShopify (buildPayload v now) up
        else if pv p then forwardToShopify (buildPayload v now) up
        else
          ⟨⟨400, .obj [("error", .str "Enter a valid phone number in E.164 format")]⟩,
           none⟩
    | none => forwardToShopify (buildPayload v now) up

/-- A validation failure is returned as 400 with the single message and no
outbound call. -/
theorem handle_validate_error (ev pv : String → Bool) (now : String)
    (up : UpstreamBehavior) (body : Json) (msg : String)
    (h : validateCustomer ev body = .error msg) :
    handleAddToShopify ev pv now up body =
      ⟨⟨400, .obj [("error", .str msg)]⟩, none⟩ := by
  unfold handleAddToShopify
  rw [h]

/-- Inversion of a successful validation: the body was an object, every
field check succeeded with the corresponding component of the value, and
no unknown key was present. -/
theorem validateCustomer_ok_inv {ev : String → Bool}
    {fields : List (String × Json)} {v : ValidatedInput}
    (h : validateCustomer ev (.obj fields) = .ok v) :
    checkUnknown fields = .ok () ∧
    checkEmail ev (lookupField fields "email") = .ok v.email ∧
    checkOptString "firstName" (lookupField fields "firstName") = .ok v.firstName ∧
    checkOptString "lastName" (lookupField fields "lastName") = .ok v.lastName ∧
    checkOptString "phone" (lookupField fields "phone") = .ok v.phone ∧
    checkOptString "hearingLossLevel" (lookupField fields "hearingLossLevel") = .ok v.hearingLossLevel ∧
    checkOptNumber "averageVolume" (lookupField fields "averageVolume") = .ok v.averageVolume ∧
    checkOptNumber "wordRecognitionScore" (lookupField fields "wordRecognitionScore") = .ok v.wordRecognitionScore ∧
    checkOptNumber "wordsMissed" (lookupField fields "wordsMissed") = .ok v.wordsMissed := by
  simp only [validateCustomer] at h
  cases h1 : checkUnknown fields with
  | error e => rw [h1] at h; exact Except.noConfusion h
  | ok u =>
  rw [h1] at h
  cases h2 : checkEmail ev (lookupField fields "email") with
  | error e => rw [h2] at h; exact Except.noConfusion h
  | ok email =>
  rw [h2] at h
  cases h3 : checkOptString "firstName" (lookupField fields "firstName") with
  | error e => rw [h3] at h; exact Except.noConfusion h
  | ok firstName =>
  rw [h3] at h
  cases h4 : checkOptString "lastName" (lookupField fields "lastName") with
  | error e => rw [h4] at h; exact Except.noConfusion h
  | ok lastName =>
  rw [h4] at h
  cases h5 : checkOptString "phone" (lookupField fields "phone") with
  | error e => rw [h5] at h; exact Except.noConfusion h
  | ok phone =>
  rw [h5] at h
  cases h6 : checkOptString "hearingLossLevel" (lookupField fields "hearingLossLevel") with
  | error e => rw [h6] at h; exact Except.noConfusion h
  | ok hearingLossLevel =>
  rw [h6] at h
  cases h7 : checkOptNumber "averageVolume" (lookupField fields "averageVolume") with
  | error e => rw [h7] at h; exact Except.noConfusion h
  | ok averageVolume =>
  rw [h7] at h
  cases h8 : checkOptNumber "wordRecognitionScore" (lookupField fields "wordRecognitionScore") with
  | error e => rw [h8] at h; exact Except.noConfusion h
  | ok wordRecognitionScore =>
  rw [h8] at h
  cases h9 : checkOptNumber "wordsMissed" (lookupField fields "wordsMissed") with
  | error e => rw [h9] at h; exact Except.noConfusion h
  | ok wordsMissed =>
  rw [h9] at h
  injection h with hv
  subst hv
  exact ⟨rfl, rfl, rfl, rfl, rfl, rfl, rfl, rfl, rfl⟩

/-- A successful optional string check never yields the empty string. -/
theorem checkOptString_ok_ne_empty {name : String} {f : Option Json}
    {r : Option String} (h : checkOptString name f = .ok r) : r ≠ some "" := by
  cases f with
  | none =>
      simp only [checkOptString, Except.ok.injEq] at h
      subst h; simp
  | some j =>
      cases j with
      | str s =>
          simp only [checkOptString] at h
          by_cases hs : s = ""
          · rw [if_pos hs] at h; exact Except.noConfusion h
          · rw [if_neg hs] at h
            injection h with h2
            subst h2
            simp [hs]
      | num n => exact Except.noConfusion h
      | bool b => exact Except.noConfusion h
      | null => exact Except.noConfusion h
      | arr elems => exact Except.noConfusion h
      | obj fs => exact Except.noConfusion h

/-- A successful validation comes from an object body. -/
theorem validateCustomer_ok_obj {ev : String → Bool} {body : Json}
    {v : ValidatedInput} (h : validateCustomer ev body = .ok v) :
    ∃ fields, body = .obj fields := by
  cases body <;> first
    | exact Except.noConfusion h
    | exact ⟨_, rfl⟩

/-- A missing, empty or syntactically invalid email makes the email check
fail. -/
theorem checkEmail_error_of_bad {ev : String → Bool} {f : Option Json}
    (h : f = none ∨ f = some (.str "") ∨ ∃ s, f = some (.str s) ∧ ev s = false) :
    ∃ e, checkEmail ev f = .error e := by
  rcases h with h | h | ⟨s, hf, hev⟩
  · subst h; exact ⟨_, rfl⟩
  · subst h; exact ⟨_, rfl⟩
  · subst hf
    simp only [checkEmail]
    by_cases hs : s = ""
    · rw [if_pos hs]; exact ⟨_, rfl⟩
    · rw [if_neg hs]
      simp [hev]

/-- A missing, empty or syntactically invalid email makes the whole
schema validation fail. -/
theorem validate_error_of_bad_email {ev : String → Bool} {body : Json}
    (h : emailField body = none ∨ emailField body = some (.str "") ∨
         ∃ s, emailField body = some (.str s) ∧ ev s = false) :
    ∃ msg, validateCustomer ev body = .error msg := by
  cases body with
  | obj fields =>
      simp only [emailField] at h
      obtain ⟨e, he⟩ := checkEmail_error_of_bad h
      simp only [validateCustomer]
      cases h1 : checkUnknown fields with
      | error e2 => exact ⟨e2, rfl⟩
      | ok u =>
          rw [he]
          exact ⟨e, rfl⟩
  | str s => exact ⟨_, rfl⟩
  | num n => exact ⟨_, rfl⟩
  | bool b => exact ⟨_, rfl⟩
  | null => exact ⟨_, rfl⟩
  | arr elems => exact ⟨_, rfl⟩

/-- C1: for every request body whose email field is missing, empty, or not
syntactically a valid email address, the /addToShopify handler responds
with HTTP 400 carrying a single error message, and no outbound HTTP call
to the upstream platform is made. -/
theorem c1_invalid_email_rejected (ev pv : String → Bool) (now : String)
    (up : UpstreamBehavior) (body : Json)
    (h : emailField body = none ∨ emailField body = some (.str "") ∨
         ∃ s, emailField body = some (.str s) ∧ ev s = false) :
    ∃ msg, handleAddToShopify ev pv now up body =
      ⟨⟨400, .obj [("error", .str msg)]⟩, none⟩ := by
  obtain ⟨msg, hmsg⟩ := validate_error_of_bad_email h
  exact ⟨msg, handle_validate_error ev pv now up body msg hmsg⟩

/-- Witness for C1 at a concrete invalid email and a checker rejecting
it: the handler answers 400 and makes no call even though the upstream
stub would answer 201. -/
theorem c1_witness :
    (∃ s, emailField (Json.obj [("email", Json.str "not-an-email")]) = some (.str s) ∧
       (fun _ => false : String → Bool) s = false) ∧
    ∃ msg, handleAddToShopify (fun _ => false) (fun _ => true)
        "2026-10-11T00:00:00.000Z" (.reply 201 .null)
        (Json.obj [("email", Json.str "not-an-email")]) =
      ⟨⟨400, .obj [("error", .str msg)]⟩, none⟩ :=
  ⟨⟨"not-an-email", rfl, rfl⟩,
   c1_invalid_email_rejected _ _ _ _ _
     (Or.inr (Or.inr ⟨"not-an-email", rfl, rfl⟩))⟩

/-- C2: for every request body that passes schema validation and contains
a phone field that does not parse as a valid internationally-formatted
phone number, the handler responds with HTTP 400 with the phone-format
message, and no outbound call to the upstream platform is made. -/
theorem c2_invalid_phone_rejected (ev pv : String → Bool) (now : String)
    (up : UpstreamBehavior) (body : Json) (v : ValidatedInput) (p : String)
    (hv : validateCustomer ev body = .ok v) (hp : v.phone = some p)
    (hpv : pv p = false) :
    handleAddToShopify ev pv now up body =
      ⟨⟨400, .obj [("error", .str "Enter a valid phone number in E.164 format")]⟩,
       none⟩ := by
  obtain ⟨fields, rfl⟩ := validateCustomer_ok_obj hv
  have hinv := validateCustomer_ok_inv hv
  have hne : v.phone ≠ some "" := checkOptString_ok_ne_empty hinv.2.2.2.2.1
  have hpne : p ≠ "" := by
    intro he; rw [he] at hp; exact hne hp
  simp only [handleAddToShopify, hv, hp]
  rw [if_neg hpne]
  simp [hpv]

/-- Witness for C2: a validated body with phone 12345 and a phone checker
rejecting it gets 400 with the E.164 message and no outbound call. -/
theorem c2_witness :
    (validateCustomer (fun _ => true)
        (Json.obj [("email", Json.str "a@b.com"), ("phone", Json.str "12345")]) =
      .ok ⟨"a@b.com", none, none, some "12345", none, none, none, none⟩) ∧
    handleAddToShopify (fun _ => true) (fun _ => false)
        "2026-10-11T00:00:00.000Z" (.reply 201 .null)
        (Json.obj [("email", Json.str "a@b.com"), ("phone", Json.str "12345")]) =
      ⟨⟨400, .obj [("error", .str "Enter a valid phone number in E.164 format")]⟩,
       none⟩ :=
  ⟨rfl,
   c2_invalid_phone_rejected _ _ _ _ _
     ⟨"a@b.com", none, none, some "12345", none, none, none, none⟩
     "12345" rfl rfl rfl⟩

/-- C10: for every request body containing any key outside the eight
schema fields, the handler responds with HTTP 400 and no outbound call is
made, because the validation schema rejects unknown keys. -/
theorem c10_unknown_key_rejected (ev pv : String → Bool) (now : String)
    (up : UpstreamBehavior) (fields : List (String × Json)) (k : String)
    (jv : Json) (hk : (k, jv) ∈ fields) (hunk : k ∉ schemaKeys) :
    ∃ msg, handleAddToShopify ev pv now up (.obj fields) =
      ⟨⟨400, .obj [("error", .str msg)]⟩, none⟩ := by
  cases hf : fields.find? (fun kv => !(schemaKeys.contains kv.1)) with
  | none =>
      exfalso
      rw [List.find?_eq_none] at hf
      have := hf (k, jv) hk
      simp at this
      exact hunk this
  | some kv =>
      have hval : validateCustomer ev (.obj fields) =
          .error (kv.1 ++ " is not allowed") := by
        simp only [validateCustomer, checkUnknown, hf]
      exact ⟨_, handle_validate_error _ _ _ _ _ _ hval⟩

/-- Witness for C10: a body with the extra key extra answers 400 with no
outbound call. -/
theorem c10_witness :
    (("extra", Json.str "x") ∈
        [("email", Json.str "a@b.com"), ("extra", Json.str "x")]) ∧
    "extra" ∉ schemaKeys ∧
    ∃ msg, handleAddToShopify (fun _ => true) (fun _ => true)
        "2026-10-11T00:00:00.000Z" (.reply 201 .null)
        (Json.obj [("email", Json.str "a@b.com"), ("extra", Json.str "x")]) =
      ⟨⟨400, .obj [("error", .str msg)]⟩, none⟩ :=
  ⟨List.Mem.tail _ (List.Mem.head _), by decide,
   c10_unknown_key_rejected _ _ _ _ _ "extra" (Json.str "x")
     (List.Mem.tail _ (List.Mem.head _)) (by decide)⟩

/-- C3: for every validated input, the tags and metafields of the built
payload are derived solely from hearingLossLevel: when it is absent both
lists are empty (and the joined tag string is empty); when it is present
the tag list is exactly that one string, the joined tag string equals it,
and the metafields list is exactly one entry with namespace custom, key
hearing_loss_level and that string value. -/
theorem c3_tags_and_metafields (ev : String → Bool) (body : Json)
    (v : ValidatedInput) (now : String)
    (hv : validateCustomer ev body = .ok v) :
    (v.hearingLossLevel = none →
       buildTags v.hearingLossLevel = [] ∧
       (buildPayload v now).metafields = [] ∧
       (buildPayload v now).tags = "") ∧
    (∀ s, v.hearingLossLevel = some s →
       buildTags v.hearingLossLevel = [s] ∧
       (buildPayload v now).tags = s ∧
       (buildPayload v now).metafields =
         [⟨"custom", "hearing_loss_level", s, "single_line_text_field"⟩]) := by
  obtain ⟨fields, rfl⟩ := validateCustomer_ok_obj hv
  have hinv := validateCustomer_ok_inv hv
  have hne : v.hearingLossLevel ≠ some "" :=
    checkOptString_ok_ne_empty hinv.2.2.2.2.2.1
  constructor
  · intro h
    simp [buildPayload, buildTags, buildMetafields, joinWith, h]
  · intro s h
    have hs : s ≠ "" := by
      intro he; rw [he] at h; exact hne h
    simp [buildPayload, buildTags, buildMetafields, joinWith, h, hs]

/-- Witness for C3 at hearingLossLevel moderate. -/
theorem c3_witness :
    (validateCustomer (fun _ => true)
        (Json.obj [("email", Json.str "a@b.com"),
                   ("hearingLossLevel", Json.str "moderate")]) =
      .ok ⟨"a@b.com", none, none, none, some "moderate", none, none, none⟩) ∧
    (buildTags (some "moderate") = ["moderate"] ∧
     (buildPayload ⟨"a@b.com", none, none, none, some "moderate", none, none, none⟩
        "2026-10-11T00:00:00.000Z").tags = "moderate" ∧
     (buildPayload ⟨"a@b.com", none, none, none, some "moderate", none, none, none⟩
        "2026-10-11T00:00:00.000Z").metafields =
       [⟨"custom", "hearing_loss_level", "moderate", "single_line_text_field"⟩]) :=
  ⟨rfl,
   (c3_tags_and_metafields (fun _ => true)
      (Json.obj [("email", Json.str "a@b.com"),
                 ("hearingLossLevel", Json.str "moderate")])
      ⟨"a@b.com", none, none, none, some "moderate", none, none, none⟩
      "2026-10-11T00:00:00.000Z" rfl).2 "moderate" rfl⟩

/-- C4: every built payload marks the customer account as enabled, with
verified email, and opted into marketing, whatever the input was. -/
theorem c4_fixed_account_flags (v : ValidatedInput) (now : String) :
    (buildPayload v now).state = "enabled" ∧
    (buildPayload v now).verified_email = true ∧
    (buildPayload v now).accepts_marketing = true :=
  ⟨rfl, rfl, rfl⟩

/-- C5: for every validated input, first name, last name and phone default
to the empty string when absent, the email consent record is subscribed
with single opt-in at the current time, the SMS consent record is the same
plus the fixed SHOPIFY source label, and absent hearingLossLevel gives
empty tags and metafields. -/
theorem c5_defaults_and_consents (ev : String → Bool) (body : Json)
    (v : ValidatedInput) (now : String)
    (hv : validateCustomer ev body = .ok v) :
    (v.firstName = none → (buildPayload v now).first_name = "") ∧
    (v.lastName = none → (buildPayload v now).last_name = "") ∧
    (v.phone = none → (buildPayload v now).phone = "") ∧
    (buildPayload v now).email_marketing_consent =
      ⟨"subscribed", "single_opt_in", now⟩ ∧
    (buildPayload v now).sms_marketing_consent =
      ⟨"subscribed", "single_opt_in", now, "SHOPIFY"⟩ ∧
    (v.hearingLossLevel = none →
      (buildPayload v now).tags = "" ∧ (buildPayload v now).metafields = []) := by
  refine ⟨?_, ?_, ?_, rfl, rfl, ?_⟩ <;>
    intro h <;>
    simp [buildPayload, buildTags, buildMetafields, joinWith, h]

/-- Witness for C5 at the scenario input with only the email field. -/
theorem c5_witness :
    (validateCustomer (fun _ => true) (Json.obj [("email", Json.str "a@b.com")]) =
      .ok ⟨"a@b.com", none, none, none, none, none, none, none⟩) ∧
    ((buildPayload ⟨"a@b.com", none, none, none, none, none, none, none⟩
        "2026-10-11T00:00:00.000Z").first_name = "" ∧
     (buildPayload ⟨"a@b.com", none, none, none, none, none, none, none⟩
        "2026-10-11T00:00:00.000Z").last_name = "" ∧
     (buildPayload ⟨"a@b.com", none, none, none, none, none, none, none⟩
        "2026-10-11T00:00:00.000Z").phone = "" ∧
     (buildPayload ⟨"a@b.com", none, none, none, none, none, none, none⟩
        "2026-10-11T00:00:00.000Z").email_marketing_consent =
       ⟨"subscribed", "single_opt_in", "2026-10-11T00:00:00.000Z"⟩ ∧
     (buildPayload ⟨"a@b.com", none, none, none, none, none, none, none⟩
        "2026-10-11T00:00:00.000Z").sms_marketing_consent =
       ⟨"subscribed", "single_opt_in", "2026-10-11T00:00:00.000Z", "SHOPIFY"⟩ ∧
     (buildPayload ⟨"a@b.com", none, none, none, none, none, none, none⟩
        "2026-10-11T00:00:00.000Z").tags = "" ∧
     (buildPayload ⟨"a@b.com", none, none, none, none, none, none, none⟩
        "2026-10-11T00:00:00.000Z").metafields = []) := by
  have h := c5_defaults_and_consents (fun _ => true)
    (Json.obj [("email", Json.str "a@b.com")])
    ⟨"a@b.com", none, none, none, none, none, none, none⟩
    "2026-10-11T00:00:00.000Z" rfl
  exact ⟨rfl, h.1 rfl, h.2.1 rfl, h.2.2.1 rfl, h.2.2.2.1, h.2.2.2.2.1,
         (h.2.2.2.2.2 rfl).1, (h.2.2.2.2.2 rfl).2⟩

/-- When validation succeeds and the phone gate passes, the handler
forwards the built payload upstream and returns the translated result. -/
theorem handle_forwards (ev pv : String → Bool) (now : String)
    (up : UpstreamBehavior) (body : Json) (v : ValidatedInput)
    (hv : validateCustomer ev body = .ok v)
    (hp : v.phone = none ∨ ∃ p, v.phone = some p ∧ pv p = true) :
    handleAddToShopify ev pv now up body =
      forwardToShopify (buildPayload v now) up := by
  simp only [handleAddToShopify, hv]
  rcases hp with hp | ⟨p, hp, hpv⟩
  · simp only [hp]
  · simp only [hp]
    by_cases hpe : p = ""
    · rw [if_pos hpe]
    · simp [hpe, hpv]

/-- C7: for every upstream response with a non-success status, the handler
responds with exactly the upstream status code and the upstream error body
wrapped under an error key. -/
theorem c7_upstream_failure_passthrough (ev pv : String → Bool) (now : String)
    (body : Json) (v : ValidatedInput) (status : Nat) (rbody : Json)
    (hv : validateCustomer ev body = .ok v)
    (hp : v.phone = none ∨ ∃ p, v.phone = some p ∧ pv p = true)
    (hs : ¬(200 ≤ status ∧ status ≤ 299)) :
    handleAddToShopify ev pv now (.reply status rbody) body =
      ⟨⟨status, .obj [("error", rbody)]⟩, some (buildPayload v now)⟩ := by
  rw [handle_forwards ev pv now (.reply status rbody) body v hv hp]
  simp only [forwardToShopify]
  rw [if_neg hs]

/-- Witness for C7 at the 422 email-taken scenario. -/
theorem c7_witness :
    (validateCustomer (fun _ => true) (Json.obj [("email", Json.str "a@b.com")]) =
      .ok ⟨"a@b.com", none, none, none, none, none, none, none⟩) ∧
    ¬(200 ≤ 422 ∧ 422 ≤ 299) ∧
    handleAddToShopify (fun _ => true) (fun _ => true) "2026-10-11T00:00:00.000Z"
        (.reply 422 (Json.obj [("errors",
           Json.obj [("email", Json.arr [Json.str "has already been taken"])])]))
        (Json.obj [("email", Json.str "a@b.com")]) =
      ⟨⟨422, .obj [("error", Json.obj [("errors",
           Json.obj [("email", Json.arr [Json.str "has already been taken"])])])]⟩,
       some (buildPayload ⟨"a@b.com", none, none, none, none, none, none, none⟩
         "2026-10-11T00:00:00.000Z")⟩ :=
  ⟨rfl, by decide,
   c7_upstream_failure_passthrough (fun _ => true) (fun _ => true)
     "2026-10-11T00:00:00.000Z" (Json.obj [("email", Json.str "a@b.com")])
     ⟨"a@b.com", none, none, none, none, none, none, none⟩ 422
     (Json.obj [("errors",
        Json.obj [("email", Json.arr [Json.str "has already been taken"])])])
     rfl (Or.inl rfl) (by decide)⟩

/-- C8: for every upstream response with a success status, the handler
responds with HTTP 200 and the fixed confirmation message together with
the upstream body unmodified under the data key. -/
theorem c8_upstream_success_200 (ev pv : String → Bool) (now : String)
    (body : Json) (v : ValidatedInput) (status : Nat) (rbody : Json)
    (hv : validateCustomer ev body = .ok v)
    (hp : v.phone = none ∨ ∃ p, v.phone = some p ∧ pv p = true)
    (hs : 200 ≤ status ∧ status ≤ 299) :
    handleAddToShopify ev pv now (.reply status rbody) body =
      ⟨⟨200, .obj [("message", .str "Customer added to Shopify successfully"),
                   ("data", rbody)]⟩,
       some (buildPayload v now)⟩ := by
  rw [handle_forwards ev pv now (.reply status rbody) body v hv hp]
  simp only [forwardToShopify]
  rw [if_pos hs]

/-- Witness for C8 at the 201 scenario with a customer object body. -/
theorem c8_witness :
    (validateCustomer (fun _ => true) (Json.obj [("email", Json.str "a@b.com")]) =
      .ok ⟨"a@b.com", none, none, none, none, none, none, none⟩) ∧
    (200 ≤ 201 ∧ 201 ≤ 299) ∧
    handleAddToShopify (fun _ => true) (fun _ => true) "2026-10-11T00:00:00.000Z"
        (.reply 201 (Json.obj [("customer", Json.obj [("id", Json.num 7)])]))
        (Json.obj [("email", Json.str "a@b.com")]) =
      ⟨⟨200, .obj [("message", .str "Customer added to Shopify successfully"),
                   ("data", Json.obj [("customer", Json.obj [("id", Json.num 7)])])]⟩,
       some (buildPayload ⟨"a@b.com", none, none, none, none, none, none, none⟩
         "2026-10-11T00:00:00.000Z")⟩ :=
  ⟨rfl, by decide,
   c8_upstream_success_200 (fun _ => true) (fun _ => true)
     "2026-10-11T00:00:00.000Z" (Json.obj [("email", Json.str "a@b.com")])
     ⟨"a@b.com", none, none, none, none, none, none, none⟩ 201
     (Json.obj [("customer", Json.obj [("id", Json.num 7)])])
     rfl (Or.inl rfl) (by decide)⟩

/-- C9: a fetch fault or a response-body parsing fault is answered with
HTTP 500 carrying the generic message and the stringified error. -/
theorem c9_unexpected_error_500 (ev pv : String → Bool) (now : String)
    (body : Json) (v : ValidatedInput) (status : Nat) (e : String)
    (hv : validateCustomer ev body = .ok v)
    (hp : v.phone = none ∨ ∃ p, v.phone = some p ∧ pv p = true) :
    handleAddToShopify ev pv now (.fault e) body =
      ⟨⟨500, .obj [("message", .str "Internal Server Error"), ("error", .str e)]⟩,
       some (buildPayload v now)⟩ ∧
    handleAddToShopify ev pv now (.badBody status e) body =
      ⟨⟨500, .obj [("message", .str "Internal Server Error"), ("error", .str e)]⟩,
       some (buildPayload v now)⟩ := by
  constructor <;> (rw [handle_forwards ev pv now _ body v hv hp]; rfl)

/-- Witness for C9 at a concrete network fault and a concrete parse
fault. -/
theorem c9_witness :
    (validateCustomer (fun _ => true) (Json.obj [("email", Json.str "a@b.com")]) =
      .ok ⟨"a@b.com", none, none, none, none, none, none, none⟩) ∧
    handleAddToShopify (fun _ => true) (fun _ => true) "2026-10-11T00:00:00.000Z"
        (.fault "FetchError: connection refused")
        (Json.obj [("email", Json.str "a@b.com")]) =
      ⟨⟨500, .obj [("message", .str "Internal Server Error"),
                   ("error", .str "FetchError: connection refused")]⟩,
       some (buildPayload ⟨"a@b.com", none, none, none, none, none, none, none⟩
         "2026-10-11T00:00:00.000Z")⟩ :=
  ⟨rfl,
   (c9_unexpected_error_500 (fun _ => true) (fun _ => true)
     "2026-10-11T00:00:00.000Z" (Json.obj [("email", Json.str "a@b.com")])
     ⟨"a@b.com", none, none, none, none, none, none, none⟩ 200
     "FetchError: connection refused" rfl (Or.inl rfl)).1⟩

/-- Counterexample to C6 as stated: the body with a valid email and
firstName set to the empty string is a string-typed value for an optional
field, yet schema validation rejects it (Joi strings disallow the empty
string by default) and the handler answers 400 without any outbound
call. -/
theorem c6_counterexample :
    validateCustomer (fun _ => true)
        (Json.obj [("email", Json.str "a@b.com"), ("firstName", Json.str "")]) =
      .error "firstName is not allowed to be empty" ∧
    handleAddToShopify (fun _ => true) (fun _ => true) "2026-10-11T00:00:00.000Z"
        (.reply 201 .null)
        (Json.obj [("email", Json.str "a@b.com"), ("firstName", Json.str "")]) =
      ⟨⟨400, .obj [("error", .str "firstName is not allowed to be empty")]⟩,
       none⟩ :=
  ⟨rfl, rfl⟩

/-- C6 amended: for every request body with a syntactically valid email,
the six fields other than email and phone are accepted by input validation
regardless of their values, up to the type checks of the schema: string
fields accept every nonempty string (the empty string is rejected by the
Joi string type) and number fields accept every number. -/
theorem c6_amended_fields_pass (ev : String → Bool) (e s1 s2 s3 : String)
    (n1 n2 n3 : Int) (he : e ≠ "") (hev : ev e = true)
    (h1 : s1 ≠ "") (h2 : s2 ≠ "") (h3 : s3 ≠ "") :
    validateCustomer ev
        (Json.obj [("email", .str e), ("firstName", .str s1),
                   ("lastName", .str s2), ("hearingLossLevel", .str s3),
                   ("averageVolume", .num n1), ("wordRecognitionScore", .num n2),
                   ("wordsMissed", .num n3)]) =
      .ok ⟨e, some s1, some s2, none, some s3, some n1, some n2, some n3⟩ := by
  have hu : checkUnknown
      [("email", .str e), ("firstName", .str s1), ("lastName", .str s2),
       ("hearingLossLevel", .str s3), ("averageVolume", .num n1),
       ("wordRecognitionScore", .num n2), ("wordsMissed", .num n3)] = .ok () := rfl
  have hfe : checkEmail ev (some (.str e)) = .ok e := by
    simp [checkEmail, he, hev]
  have hs1 : checkOptString "firstName" (some (.str s1)) = .ok (some s1) := by
    simp [checkOptString, h1]
  have hs2 : checkOptString "lastName" (some (.str s2)) = .ok (some s2) := by
    simp [checkOptString, h2]
  have hs3 : checkOptString "hearingLossLevel" (some (.str s3)) = .ok (some s3) := by
    simp [checkOptString, h3]
  simp only [validateCustomer, hu]
  rw [show lookupField
      [("email", .str e), ("firstName", .str s1), ("lastName", .str s2),
       ("hearingLossLevel", .str s3), ("averageVolume", .num n1),
       ("wordRecognitionScore", .num n2), ("wordsMissed", .num n3)] "email" =
      some (.str e) from rfl, hfe]
  rw [show lookupField
      [("email", .str e), ("firstName", .str s1), ("lastName", .str s2),
       ("hearingLossLevel", .str s3), ("averageVolume", .num n1),
       ("wordRecognitionScore", .num n2), ("wordsMissed", .num n3)] "firstName" =
      some (.str s1) from rfl, hs1]
  rw [show lookupField
      [("email", .str e), ("firstName", .str s1), ("lastName", .str s2),
       ("hearingLossLevel", .str s3), ("averageVolume", .num n1),
       ("wordRecognitionScore", .num n2), ("wordsMissed", .num n3)] "lastName" =
      some (.str s2) from rfl, hs2]
  rw [show lookupField
      [("email", .str e), ("firstName", .str s1), ("lastName", .str s2),
       ("hearingLossLevel", .str s3), ("averageVolume", .num n1),
       ("wordRecognitionScore", .num n2), ("wordsMissed", .num n3)] "hearingLossLevel" =
      some (.str s3) from rfl, hs3]
  rfl

/-- Witness for the amended C6 at concrete nonempty field values. -/
theorem c6_amended_witness :
    ("a@b.com" ≠ "" ∧ "Jane" ≠ "" ∧ "Doe" ≠ "" ∧ "severe" ≠ "") ∧
    validateCustomer (fun _ => true)
        (Json.obj [("email", .str "a@b.com"), ("firstName", .str "Jane"),
                   ("lastName", .str "Doe"), ("hearingLossLevel", .str "severe"),
                   ("averageVolume", .num 62), ("wordRecognitionScore", .num 4),
                   ("wordsMissed", .num 11)]) =
      .ok ⟨"a@b.com", some "Jane", some "Doe", none, some "severe",
           some 62, some 4, some 11⟩ :=
  ⟨⟨by decide, by decide, by decide, by decide⟩,
   c6_amended_fields_pass (fun _ => true) "a@b.com" "Jane" "Doe" "severe"
     62 4 11 (by decide) rfl (by decide) (by decide) (by decide)⟩
